import Mathlib

/-!
Shallow embedding of the worker runtime in `src/python/ray/worker.py`,
together with theorems settling the frozen claims about it.

Conventions of the embedding:
* 20-byte identifiers are modelled as lists of natural numbers (each entry a
  byte value); the distinguished NIL identifier is 20 copies of 0xff, as in
  `NIL_ID = ray_constants.ID_SIZE * b"\xff"`.
* Python runtime values that the claims inspect are modelled by the inductive
  `Value`: a value can be an ObjectID, a `RayTaskError` sentinel, or an opaque
  payload.  The environment-dependent fields of `RayTaskError` (process title,
  pid, host) are irrelevant to every claim and are not modelled.
* Fallible code returns `Except` values; interactions with the plasma store
  and the raylet are modelled as explicit data (lists of writes, outcome
  parameters, result constructors that record the arguments of the call).
-/

namespace RayWorker

/-- `ray_constants.ID_SIZE`: identifiers are 20 bytes long. -/
def ID_SIZE : Nat := 20

/-- A 20-byte identifier, modelled as a list of byte values. -/
abbrev RayID := List Nat

/-- `NIL_ID = ray_constants.ID_SIZE * b"\xff"` (worker.py line 55). -/
def NIL_ID : RayID := List.replicate ID_SIZE 0xff

/-- A concrete non-NIL sample identifier (20 copies of the byte `b`, for
`b ≠ 0xff`), used to build concrete tasks in witnesses. -/
def sampleId (b : Nat) : RayID := List.replicate ID_SIZE b

/-- The claim-relevant fields of the `RayTaskError` sentinel class
(worker.py lines 100-110): the name of the failed function and the traceback
string.  The process title, pid and host are environment data and not
modelled. -/
structure RayTaskError where
  function_name : String
  traceback_str : String
deriving DecidableEq

/-- A Python runtime value, as far as the claims need to distinguish values:
an `ObjectID`, a `RayTaskError` failure sentinel, or anything else (opaque
payload). -/
inductive Value where
  | objectID (id : RayID)
  | taskError (e : RayTaskError)
  | payload (data : Nat)
deriving DecidableEq

/-- `isinstance(value, RayTaskError)` on a modelled value. -/
def is_task_error : Value → Bool
  | .taskError _ => true
  | _ => false

/-- The fields of `ray.raylet.Task` that the claims inspect: driver id,
task id, the list of return ObjectIDs (`task.returns()`), the actor id and
the actor creation id. -/
structure Task where
  driver_id : RayID
  task_id : RayID
  returns : List RayID
  actor_id : RayID
  actor_creation_id : RayID
deriving DecidableEq

/-- The fields of `FunctionDescriptor` used by the failure handler
(worker.py lines 846-866). -/
structure FunctionDescriptor where
  module_name : String
  class_name : String
  function_name : String
  function_id : RayID
deriving DecidableEq

/-! ## Modes (worker.py lines 47-50) -/

/-- The worker modes `SCRIPT_MODE`, `WORKER_MODE`, `LOCAL_MODE`. -/
inductive Mode where
  | script
  | worker
  | localMode
deriving DecidableEq

/-! ## C8: `get` and `put` in LOCAL mode (worker.py lines 2365-2369, 2399-2407)

`ray.put` in LOCAL mode returns the value itself before the put id is
computed, before `put_object` is called and before `put_index` is
incremented; in the other modes it computes an id from the current
`put_index`, writes the value to the store and increments `put_index`.
`ray.get` in LOCAL mode returns its input unchanged without consulting the
object store. -/

/-- The observable outcome of one `ray.put` call: the returned value, the
`put_index` of the worker afterwards, and the writes issued to the object
store. -/
structure PutCall where
  result : Value
  put_index : Nat
  writes : List (RayID × Value)
deriving DecidableEq

/-- `ray.put` (worker.py lines 2399-2407).  `compute_put_id` stands for
`raylet_client.compute_put_id(current_task_id, put_index)`. -/
def ray_put (mode : Mode) (compute_put_id : Nat → RayID) (put_index : Nat)
    (value : Value) : PutCall :=
  match mode with
  | .localMode => ⟨value, put_index, []⟩
  | _ =>
    let oid := compute_put_id put_index
    ⟨Value.objectID oid, put_index + 1, [(oid, value)]⟩

/-- `ray.get` (worker.py lines 2365-2369), restricted to the mode dispatch:
in LOCAL mode the input is returned unchanged; otherwise `store_lookup`
stands for the whole `worker.get_object` retrieval path. -/
def ray_get_value (mode : Mode) (store_lookup : Value → Value) (x : Value) :
    Value :=
  match mode with
  | .localMode => x
  | _ => store_lookup x

/-- C8: in LOCAL mode, `put(v)` returns `v` itself (with no store write and
no `put_index` change) and `get(x)` returns `x` itself, for any store
contents; hence `get(put(v)) = v` identically. -/
theorem c8_local_mode_put_get_identity (v x : Value)
    (compute_put_id : Nat → RayID) (put_index : Nat)
    (store_lookup : Value → Value) :
    ray_put Mode.localMode compute_put_id put_index v = ⟨v, put_index, []⟩ ∧
    ray_get_value Mode.localMode store_lookup x = x ∧
    ray_get_value Mode.localMode store_lookup
      (ray_put Mode.localMode compute_put_id put_index v).result = v := by
  exact ⟨rfl, rfl, rfl⟩

/-! ## C1: failure sentinels for the return ObjectIDs
(worker.py `_process_task` lines 757-844, `_handle_process_task_failure`
lines 846-869)

`_process_task` reads `return_object_ids = task.returns()` and, when the task
is actor-related (`task.actor_id().id() != NIL_ACTOR_ID or
task.actor_creation_id().id() != NIL_ACTOR_ID`), pops the last id off that
list as `dummy_return_id` before anything can fail.  Every failure path then
calls `_handle_process_task_failure` with the remaining (popped) list, which
stores one `RayTaskError(function_name, backtrace)` per remaining id and
pushes one error event to the driver of the task. -/

/-- The error event `ray.utils.push_error_to_driver` is called with in
`_handle_process_task_failure` (worker.py lines 856-866): the
`TASK_PUSH_ERROR` type, the driver id `self.task_driver_id` (which during
processing is the driver id of the task), and the data dictionary fields. -/
structure PushedError where
  driver_id : RayID
  function_id : RayID
  function_name : String
  module_name : String
  class_name : String
deriving DecidableEq

/-- `_handle_process_task_failure` (worker.py lines 846-866): build one
`RayTaskError(function_name, backtrace)`, store a copy of it for every id in
`return_object_ids` (via `_store_outputs_in_object_store`, which writes
`object_ids[i] ↦ outputs[i]`), and push one error event to the driver. -/
def handle_process_task_failure (fd : FunctionDescriptor)
    (return_object_ids : List RayID) (backtrace : String)
    (task_driver_id : RayID) : List (RayID × Value) × PushedError :=
  let failure_object : RayTaskError := ⟨fd.function_name, backtrace⟩
  (return_object_ids.map (fun oid => (oid, Value.taskError failure_object)),
   ⟨task_driver_id, fd.function_id, fd.function_name, fd.module_name,
    fd.class_name⟩)

/-- The list of return ids that `_process_task` still holds when a failure is
handled (worker.py lines 782-785): `task.returns()` with the last element
popped off as `dummy_return_id` when the task is actor-related. -/
def effective_return_ids (t : Task) : List RayID :=
  if t.actor_id ≠ NIL_ID ∨ t.actor_creation_id ≠ NIL_ID then
    t.returns.dropLast
  else
    t.returns

/-- The failure path of `_process_task`: all three failure sites (argument
materialisation, execution, output storing) call
`_handle_process_task_failure` with the same `return_object_ids` list and
with `self.task_driver_id = task.driver_id()`. -/
def process_task_failure (t : Task) (fd : FunctionDescriptor)
    (backtrace : String) : List (RayID × Value) × PushedError :=
  handle_process_task_failure fd (effective_return_ids t) backtrace
    t.driver_id

/-- A concrete actor task with two return ObjectIDs; the second one is the
dummy return. -/
def c1_actor_task : Task :=
  { driver_id := sampleId 1, task_id := sampleId 2,
    returns := [sampleId 3, sampleId 4], actor_id := NIL_ID,
    actor_creation_id := sampleId 5 }

/-- A concrete function descriptor for the C1 counterexample. -/
def c1_fd : FunctionDescriptor :=
  ⟨"mod", "Cls", "method", sampleId 9⟩

/-- A concrete traceback string for the C1 counterexample. -/
def c1_tb : String := "Traceback: boom"

/-- C1 counterexample: for the concrete failing actor task `c1_actor_task`
with two expected return ObjectIDs, the dummy return id (`sampleId 4`, the
last element of `task.returns()`) is one of the return ids of the task and
yet receives no failure sentinel: it is popped off `return_object_ids`
before `_handle_process_task_failure` runs, so the stored sentinel writes
cover only the other return id.  This refutes the claim that a sentinel is
stored for every one of the k return ObjectIDs including the dummy return
of an actor task. -/
theorem c1_dummy_return_gets_no_sentinel :
    sampleId 4 ∈ c1_actor_task.returns ∧
    sampleId 4 ∉ (process_task_failure c1_actor_task c1_fd c1_tb).1.map
      Prod.fst ∧
    (process_task_failure c1_actor_task c1_fd c1_tb).1.length ≠
      c1_actor_task.returns.length := by
  refine ⟨by decide, by decide, by decide⟩

/-- C1 amended: when a task fails, one `RayTaskError` sentinel carrying the
function name of the task and the traceback string is stored for every
return ObjectID the worker still holds — all k return ids of a non-actor
task, and all but the popped dummy (last) return id of an actor task — and
one error event is pushed to the driver of the task. -/
theorem c1_failure_sentinels (t : Task) (fd : FunctionDescriptor)
    (backtrace : String) :
    (process_task_failure t fd backtrace).1.map Prod.fst =
      effective_return_ids t ∧
    (∀ p ∈ (process_task_failure t fd backtrace).1,
      p.2 = Value.taskError ⟨fd.function_name, backtrace⟩) ∧
    (t.actor_id = NIL_ID ∧ t.actor_creation_id = NIL_ID →
      (process_task_failure t fd backtrace).1.map Prod.fst = t.returns) ∧
    (process_task_failure t fd backtrace).2.driver_id = t.driver_id ∧
    (process_task_failure t fd backtrace).2.function_name =
      fd.function_name := by
  refine ⟨?_, ?_, ?_, rfl, rfl⟩
  · simp [process_task_failure, handle_process_task_failure,
      Function.comp_def]
  · intro p hp
    simp only [process_task_failure, handle_process_task_failure,
      List.mem_map] at hp
    obtain ⟨oid, _, rfl⟩ := hp
    rfl
  · intro h
    simp [process_task_failure, handle_process_task_failure,
      effective_return_ids, h.1, h.2, Function.comp_def]

/-- C1 amended, witness: evaluated on the concrete actor task, the sentinel
writes cover exactly the non-dummy return id and carry the function name and
traceback of the failure. -/
theorem c1_failure_sentinels_witness :
    (process_task_failure c1_actor_task c1_fd c1_tb).1.map Prod.fst =
      effective_return_ids c1_actor_task ∧
    (process_task_failure c1_actor_task c1_fd c1_tb).2.driver_id =
      c1_actor_task.driver_id := by
  have h := c1_failure_sentinels c1_actor_task c1_fd c1_tb
  exact ⟨h.1, h.2.2.2.1⟩

/-! ## C2: per-task worker state lifecycle
(worker.py `_process_task` lines 767-777, `_wait_for_and_process_task`
lines 920-925, `submit_task` lines 614-618, `put` line 2406)

`_process_task` starts by asserting, under the state lock, that
`task_driver_id` and `current_task_id` are NIL, `task_index` is 0 and
`put_index` is 1, and then installs the (driver id, task id) pair of the
task.  During execution, `submit_task` increments `task_index` and `put`
increments `put_index`, and nothing touches the two ids.  After
`_process_task` returns, `_wait_for_and_process_task` resets the four fields
to NIL, NIL, 0 and 1. -/

/-- The four per-task bookkeeping fields of the worker that the state lock
guards. -/
structure WorkerState where
  task_driver_id : RayID
  current_task_id : RayID
  task_index : Nat
  put_index : Nat
deriving DecidableEq

/-- The idle worker state: both ids NIL, `task_index = 0`, `put_index = 1`.
This is the state `connect` establishes and the reset block restores. -/
def idle_state : WorkerState := ⟨NIL_ID, NIL_ID, 0, 1⟩

/-- The entry block of `_process_task` (worker.py lines 767-777): the four
assertions, then installing the (driver id, task id) pair of the task.
Returns `none` when an assertion fails. -/
def process_task_begin (s : WorkerState) (t : Task) : Option WorkerState :=
  if s.task_driver_id = NIL_ID ∧ s.current_task_id = NIL_ID ∧
      s.task_index = 0 ∧ s.put_index = 1 then
    some { s with task_driver_id := t.driver_id,
                  current_task_id := t.task_id }
  else
    none

/-- The operations performed during task execution that mutate the guarded
fields: `submit_task` increments `task_index` (worker.py lines 617-618) and
`put` increments `put_index` (worker.py line 2406). -/
inductive MidOp where
  | submitTask
  | putValue
deriving DecidableEq

/-- The effect of one mid-task operation on the worker state. -/
def apply_mid_op (s : WorkerState) : MidOp → WorkerState
  | .submitTask => { s with task_index := s.task_index + 1 }
  | .putValue => { s with put_index := s.put_index + 1 }

/-- The worker state after a sequence of mid-task operations. -/
def run_mid_ops (s : WorkerState) (ops : List MidOp) : WorkerState :=
  ops.foldl apply_mid_op s

/-- The reset block of `_wait_for_and_process_task` (worker.py lines
920-925). -/
def reset_task_state (_s : WorkerState) : WorkerState :=
  ⟨NIL_ID, NIL_ID, 0, 1⟩

/-- One full pass of `_wait_for_and_process_task` over the guarded state:
enter `_process_task` (asserting the idle precondition), run the mid-task
operations of the task body, then reset. -/
def wait_for_and_process_task (s : WorkerState) (t : Task)
    (ops : List MidOp) : Option WorkerState :=
  match process_task_begin s t with
  | none => none
  | some s1 => some (reset_task_state (run_mid_ops s1 ops))

/-- Mid-task operations never change the two id fields. -/
theorem run_mid_ops_preserves_ids (ops : List MidOp) (s : WorkerState) :
    (run_mid_ops s ops).task_driver_id = s.task_driver_id ∧
    (run_mid_ops s ops).current_task_id = s.current_task_id := by
  induction ops generalizing s with
  | nil => exact ⟨rfl, rfl⟩
  | cons op rest ih =>
    have h := ih (apply_mid_op s op)
    cases op <;>
      simpa [run_mid_ops, List.foldl_cons, apply_mid_op] using h

/-- C2: execution of a task begins with both ids NIL, `task_index = 0` and
`put_index = 1` — the entry assertions of `_process_task` pass exactly when
the worker state is the idle state; during execution the worker holds
exactly the (driver id, task id) pair of the task, whatever mid-task
`submit_task` and `put` operations occur, and (for a task with non-NIL ids)
the held ids are not NIL; after the task is processed the four fields are
reset to NIL, NIL, 0 and 1, so both ids are NIL precisely in the idle
state. -/
theorem c2_worker_state_lifecycle (s : WorkerState) (t : Task)
    (ops : List MidOp) (hd : t.driver_id ≠ NIL_ID)
    (hc : t.task_id ≠ NIL_ID) :
    ((process_task_begin s t).isSome ↔ s = idle_state) ∧
    (∀ s1, process_task_begin s t = some s1 →
      (run_mid_ops s1 ops).task_driver_id = t.driver_id ∧
      (run_mid_ops s1 ops).current_task_id = t.task_id ∧
      (run_mid_ops s1 ops).task_driver_id ≠ NIL_ID ∧
      (run_mid_ops s1 ops).current_task_id ≠ NIL_ID) ∧
    (∀ s2, wait_for_and_process_task s t ops = some s2 →
      s2 = idle_state) ∧
    (idle_state.task_driver_id = NIL_ID ∧
      idle_state.current_task_id = NIL_ID) := by
  refine ⟨?_, ?_, ?_, rfl, rfl⟩
  · constructor
    · intro h
      by_cases hcond : s.task_driver_id = NIL_ID ∧
          s.current_task_id = NIL_ID ∧ s.task_index = 0 ∧ s.put_index = 1
      · obtain ⟨h1, h2, h3, h4⟩ := hcond
        cases s
        simp only [idle_state]
        simp_all
      · simp [process_task_begin, hcond] at h
    · intro h
      subst h
      simp [process_task_begin, idle_state]
  · intro s1 hs1
    by_cases hcond : s.task_driver_id = NIL_ID ∧
        s.current_task_id = NIL_ID ∧ s.task_index = 0 ∧ s.put_index = 1
    · simp only [process_task_begin, if_pos hcond, Option.some.injEq] at hs1
      subst hs1
      have h := run_mid_ops_preserves_ids ops
        { s with task_driver_id := t.driver_id,
                 current_task_id := t.task_id }
      refine ⟨h.1, h.2, ?_, ?_⟩
      · intro hnil
        exact hd (h.1.symm.trans hnil)
      · intro hnil
        exact hc (h.2.symm.trans hnil)
    · simp [process_task_begin, hcond] at hs1
  · intro s2 hs2
    unfold wait_for_and_process_task at hs2
    cases hpb : process_task_begin s t with
    | none => simp [hpb] at hs2
    | some s1 =>
      simp only [hpb, Option.some.injEq] at hs2
      exact hs2.symm

/-- A concrete task with non-NIL driver and task ids, for the C2 witness. -/
def c2_task : Task :=
  { driver_id := sampleId 1, task_id := sampleId 2, returns := [sampleId 3],
    actor_id := NIL_ID, actor_creation_id := NIL_ID }

/-- C2 witness: applying the lifecycle theorem to the idle state, the
concrete task `c2_task` and a concrete mid-task operation sequence shows the
entry assertions pass and the processed state is reset to idle. -/
theorem c2_worker_state_lifecycle_witness :
    (process_task_begin idle_state c2_task).isSome ∧
    wait_for_and_process_task idle_state c2_task
      [MidOp.submitTask, MidOp.putValue] = some idle_state := by
  have h := c2_worker_state_lifecycle idle_state c2_task
    [MidOp.submitTask, MidOp.putValue] (by decide) (by decide)
  refine ⟨h.1.mpr rfl, ?_⟩
  cases hw : wait_for_and_process_task idle_state c2_task
      [MidOp.submitTask, MidOp.putValue] with
  | none =>
    have hs : (process_task_begin idle_state c2_task).isSome :=
      h.1.mpr rfl
    rw [Option.isSome_iff_exists] at hs
    obtain ⟨s1, hs1⟩ := hs
    simp [wait_for_and_process_task, hs1] at hw
  | some s2 =>
    rw [h.2.2.1 s2 hw]

/-! ## C3: the blocking retry loop of `get_object`
(worker.py lines 476-506)

Each iteration of the loop calls `retrieve_and_deserialize` with timeout
`max([get_timeout_milliseconds, int(0.01 * len(unready_ids))])`.  Python
`int(...)` truncates toward zero, and for every unready-set size that can
occur the float product `0.01 * n` truncates to `⌊n / 100⌋` — not to the
ceiling.  Received values are written into `final_results` at the index the
`unready_ids` dictionary recorded for their id, and the received ids are
popped from `unready_ids`. -/

/-- The per-iteration store timeout of the loop (worker.py lines 493-498):
`max(get_timeout_milliseconds, int(0.01 * len(unready_ids)))`, with the
Python truncation `int(0.01 * n)` modelled as `n / 100` in `Nat`. -/
def get_object_timeout (get_timeout_ms num_unready : Nat) : Nat :=
  max get_timeout_ms (num_unready / 100)

/-- The timeout the CLAIM asserts, following the words of the spec: the
CEILING of `0.01` times the number of unready ids, `⌈n / 100⌉ = (n + 99) / 100`
in `Nat`.  Declared only to be compared with `get_object_timeout`. -/
def get_object_timeout_claim (get_timeout_ms num_unready : Nat) : Nat :=
  max get_timeout_ms ((num_unready + 99) / 100)

/-- C3 counterexample: with `get_timeout_milliseconds = 1` and 150 unready
ids, the code issues the store Get with timeout
`max(1, int(0.01 * 150)) = max(1, 1) = 1` ms, while the claim demands
`max(1, ⌈0.01 * 150⌉) = max(1, 2) = 2` ms. -/
theorem c3_timeout_truncates_not_ceils :
    get_object_timeout 1 150 = 1 ∧ get_object_timeout_claim 1 150 = 2 ∧
    get_object_timeout 1 150 ≠ get_object_timeout_claim 1 150 := by
  refine ⟨by decide, by decide, by decide⟩

/-- One entry-merge step of the receive loop (worker.py lines 501-506): if
the store returned a value for the id of `p`, write it into the result list
at the recorded original index `p.2`; otherwise leave the list unchanged. -/
def mergeAssign (resp : RayID → Option Value) (acc : List (Option Value))
    (p : RayID × Nat) : List (Option Value) :=
  match resp p.1 with
  | some v => acc.set p.2 (some v)
  | none => acc

/-- The merge phase of one loop iteration: fold the received values into
`final_results` at their original indices, and keep in the unready set only
the entries whose id the store did not return.  `resp id = none` models the
store answering `plasma.ObjectNotAvailable` for `id`. -/
def mergeResults (final : List (Option Value))
    (unready : List (RayID × Nat)) (resp : RayID → Option Value) :
    List (Option Value) × List (RayID × Nat) :=
  (unready.foldl (mergeAssign resp) final,
   unready.filter (fun p => (resp p.1).isNone))

/-- One full iteration of the blocking retry loop of `get_object`
(worker.py lines 476-506): fetch-or-reconstruct the unready ids, call the
store with the truncating timeout, merge the received values and drop the
received ids. -/
structure GetRetryStep where
  timeout_ms : Nat
  final_results : List (Option Value)
  unready : List (RayID × Nat)

/-- One iteration of the retry loop, as a function of the store response. -/
def get_retry_iteration (get_timeout_ms : Nat)
    (final : List (Option Value)) (unready : List (RayID × Nat))
    (resp : RayID → Option Value) : GetRetryStep :=
  let merged := mergeResults final unready resp
  ⟨get_object_timeout get_timeout_ms unready.length, merged.1, merged.2⟩

/-- `mergeAssign` preserves the length of the result list. -/
theorem mergeAssign_length (resp : RayID → Option Value)
    (acc : List (Option Value)) (p : RayID × Nat) :
    (mergeAssign resp acc p).length = acc.length := by
  unfold mergeAssign
  cases resp p.1 <;> simp

/-- The merge fold preserves the length of the result list. -/
theorem mergeFold_length (resp : RayID → Option Value)
    (l : List (RayID × Nat)) (final : List (Option Value)) :
    (l.foldl (mergeAssign resp) final).length = final.length := by
  induction l generalizing final with
  | nil => rfl
  | cons p rest ih =>
    rw [List.foldl_cons, ih, mergeAssign_length]

/-- Positions whose index appears in no unready entry are untouched by the
merge fold. -/
theorem mergeFold_untouched (resp : RayID → Option Value)
    (l : List (RayID × Nat)) (final : List (Option Value)) (idx : Nat)
    (h : idx ∉ l.map Prod.snd) :
    (l.foldl (mergeAssign resp) final)[idx]? = final[idx]? := by
  induction l generalizing final with
  | nil => rfl
  | cons p rest ih =>
    simp only [List.map_cons, List.mem_cons, not_or] at h
    rw [List.foldl_cons, ih _ h.2]
    unfold mergeAssign
    cases resp p.1 with
    | none => rfl
    | some v => exact List.getElem?_set_ne (fun he => h.1 he.symm)

/-- The central merge property: when the original indices recorded in the
unready set are pairwise distinct and in range, a received value lands in
the result list at its recorded original index. -/
theorem mergeFold_get (resp : RayID → Option Value)
    (l : List (RayID × Nat)) (final : List (Option Value)) (id : RayID)
    (idx : Nat) (v : Value) (hnd : (l.map Prod.snd).Nodup)
    (hlen : idx < final.length) (hmem : (id, idx) ∈ l)
    (hresp : resp id = some v) :
    (l.foldl (mergeAssign resp) final)[idx]? = some (some v) := by
  induction l generalizing final with
  | nil => cases hmem
  | cons p rest ih =>
    simp only [List.map_cons, List.nodup_cons] at hnd
    rcases List.mem_cons.mp hmem with hp | hrest
    · subst hp
      rw [List.foldl_cons]
      have huntouched : idx ∉ rest.map Prod.snd := hnd.1
      rw [mergeFold_untouched resp rest _ idx huntouched]
      unfold mergeAssign
      simp only [hresp]
      exact List.getElem?_set_eq_of_lt _ hlen
    · rw [List.foldl_cons]
      exact ih (mergeAssign resp final p) hnd.2
        (by rw [mergeAssign_length]; exact hlen) hrest

/-- C3 amended: for every non-empty unready set, each store Get call is
issued with timeout `max(get_timeout_milliseconds, ⌊0.01 · |unready|⌋)` ms
(Python `int` truncates the product — it does not take the ceiling);
received values are merged into the result list at the original input
positions; and exactly the received ids are removed from the unready set. -/
theorem c3_retry_iteration (get_timeout_ms : Nat)
    (final : List (Option Value)) (unready : List (RayID × Nat))
    (resp : RayID → Option Value) (_hne : unready ≠ [])
    (hnd : (unready.map Prod.snd).Nodup)
    (hbound : ∀ p ∈ unready, p.2 < final.length) :
    (get_retry_iteration get_timeout_ms final unready resp).timeout_ms =
      max get_timeout_ms (unready.length / 100) ∧
    (∀ id idx v, (id, idx) ∈ unready → resp id = some v →
      (get_retry_iteration get_timeout_ms final unready
        resp).final_results[idx]? = some (some v)) ∧
    (∀ p, p ∈ (get_retry_iteration get_timeout_ms final unready
        resp).unready ↔ (p ∈ unready ∧ resp p.1 = none)) := by
  refine ⟨rfl, ?_, ?_⟩
  · intro id idx v hmem hresp
    exact mergeFold_get resp unready final id idx v hnd
      (hbound (id, idx) hmem) hmem hresp
  · intro p
    simp only [get_retry_iteration, mergeResults, List.mem_filter,
      Option.isNone_iff_eq_none, decide_eq_true_eq]

/-- Concrete unready set for the C3 witness: two ids recorded at original
indices 0 and 2 of a three-slot result list. -/
def c3_unready : List (RayID × Nat) := [(sampleId 6, 0), (sampleId 7, 2)]

/-- Concrete store response for the C3 witness: the first id is received,
the second is still not available. -/
def c3_resp (id : RayID) : Option Value :=
  if id = sampleId 6 then some (Value.payload 42) else none

/-- C3 amended, witness: on the concrete iteration the timeout evaluates to
`max(3, ⌊2/100⌋) = 3`, the received value is merged at original index 0, and
only the unreceived id stays unready. -/
theorem c3_retry_iteration_witness :
    (get_retry_iteration 3 [none, none, none] c3_unready
      c3_resp).timeout_ms = 3 ∧
    (get_retry_iteration 3 [none, none, none] c3_unready
      c3_resp).final_results[0]? = some (some (Value.payload 42)) ∧
    ((sampleId 7, 2) ∈ (get_retry_iteration 3 [none, none, none] c3_unready
      c3_resp).unready) := by
  have h := c3_retry_iteration 3 [none, none, none] c3_unready c3_resp
    (by decide) (by decide) (by decide)
  refine ⟨h.1, ?_, ?_⟩
  · exact h.2.1 (sampleId 6) 0 (Value.payload 42) (by decide) (by decide)
  · exact (h.2.2 (sampleId 7, 2)).mpr ⟨by decide, by decide⟩

/-! ## C4: `wait` validation and default timeout
(worker.py lines 2410-2485)

The non-LOCAL path of `wait` (after the type checks, which the types of this
embedding enforce) first short-circuits an EMPTY id list to `([], [])`
(lines 2466-2467, the workaround for ray issue 997), and only then checks
uniqueness, `num_returns <= 0` and `num_returns > len(object_ids)` in that
order; when no timeout is supplied it delegates to the raylet with timeout
`2**30`. -/

/-- Error messages raised by `wait`. -/
def WAIT_UNIQUE_MSG : String := "Wait requires a list of unique object IDs."

/-- Error message for a non-positive `num_returns`. -/
def WAIT_NUM_RETURNS_POSITIVE_MSG : String :=
  "Invalid number of objects to return."

/-- Error message for `num_returns` larger than the id list. -/
def WAIT_NUM_RETURNS_TOO_LARGE_MSG : String :=
  "num_returns cannot be greater than the number of objects provided to ray.wait."

/-- The observable outcome of a non-LOCAL `wait` call: an exception, an
immediate return, or a delegation to `raylet_client.wait` with the recorded
arguments. -/
inductive WaitCall where
  | errored (msg : String)
  | immediate (ready remaining : List RayID)
  | delegated (ids : List RayID) (num_returns : Int) (timeout_ms : Int)
      (task_id : RayID)
deriving DecidableEq

/-- The non-LOCAL path of `wait` (worker.py lines 2466-2485).  `num_returns`
is a Python int and may be negative, hence `Int`; `timeout = none` models an
unsupplied timeout. -/
def ray_wait (object_ids : List RayID) (num_returns : Int)
    (timeout : Option Int) (current_task_id : RayID) : WaitCall :=
  if object_ids.length = 0 then
    .immediate [] []
  else if ¬object_ids.Nodup then
    .errored WAIT_UNIQUE_MSG
  else if num_returns ≤ 0 then
    .errored WAIT_NUM_RETURNS_POSITIVE_MSG
  else if num_returns > (object_ids.length : Int) then
    .errored WAIT_NUM_RETURNS_TOO_LARGE_MSG
  else
    .delegated object_ids num_returns
      (match timeout with | some t => t | none => 2 ^ 30) current_task_id

/-- C4 counterexample: calling `wait` on the empty list with
`num_returns = 1` has `num_returns > len(object_ids)`, yet the code does not
raise — the empty-list workaround returns `([], [])` before any validation
runs.  This refutes the claim that every non-LOCAL call with
`num_returns > len(object_ids)` raises. -/
theorem c4_empty_list_skips_validation :
    ray_wait [] 1 none NIL_ID = WaitCall.immediate [] [] ∧
    (1 : Int) > (([] : List RayID).length : Int) := by
  refine ⟨rfl, by decide⟩

/-- C4 amended: for every call to `wait` in non-LOCAL mode with a NON-EMPTY
id list, the call raises exactly when the ObjectIDs are not pairwise
distinct, or `num_returns < 1`, or `num_returns > len(object_ids)`; an empty
id list instead returns `([], [])` immediately without validation; and when
the checks pass and no timeout is supplied the call delegates to the
scheduler with a timeout of exactly `2^30` milliseconds. -/
theorem c4_wait_validation (object_ids : List RayID) (num_returns : Int)
    (timeout : Option Int) (current_task_id : RayID)
    (hne : object_ids ≠ []) :
    ((∃ msg, ray_wait object_ids num_returns timeout current_task_id =
        WaitCall.errored msg) ↔
      (¬object_ids.Nodup ∨ num_returns ≤ 0 ∨
        num_returns > (object_ids.length : Int))) ∧
    (ray_wait [] num_returns timeout current_task_id =
      WaitCall.immediate [] []) ∧
    (object_ids.Nodup → 0 < num_returns →
      num_returns ≤ (object_ids.length : Int) →
      ray_wait object_ids num_returns none current_task_id =
        WaitCall.delegated object_ids num_returns (2 ^ 30)
          current_task_id) := by
  have hlen : object_ids.length ≠ 0 := fun h => hne (List.eq_nil_of_length_eq_zero h)
  refine ⟨?_, rfl, ?_⟩
  · constructor
    · intro ⟨msg, hmsg⟩
      unfold ray_wait at hmsg
      rw [if_neg hlen] at hmsg
      by_cases h1 : object_ids.Nodup
      · rw [if_neg (by simpa using h1)] at hmsg
        by_cases h2 : num_returns ≤ 0
        · exact Or.inr (Or.inl h2)
        · rw [if_neg h2] at hmsg
          by_cases h3 : num_returns > (object_ids.length : Int)
          · exact Or.inr (Or.inr h3)
          · rw [if_neg h3] at hmsg
            cases hmsg
      · exact Or.inl h1
    · intro h
      unfold ray_wait
      rw [if_neg hlen]
      by_cases h1 : object_ids.Nodup
      · rw [if_neg (by simpa using h1)]
        by_cases h2 : num_returns ≤ 0
        · rw [if_pos h2]
          exact ⟨WAIT_NUM_RETURNS_POSITIVE_MSG, rfl⟩
        · rw [if_neg h2]
          rcases h with h | h | h
          · exact absurd h1 h
          · exact absurd h h2
          · rw [if_pos h]
            exact ⟨WAIT_NUM_RETURNS_TOO_LARGE_MSG, rfl⟩
      · rw [if_pos (by simpa using h1)]
        exact ⟨WAIT_UNIQUE_MSG, rfl⟩
  · intro h1 h2 h3
    unfold ray_wait
    rw [if_neg hlen, if_neg (by simpa using h1), if_neg (by omega),
      if_neg (by omega)]

/-- C4 amended, witness: on a concrete two-element list with duplicate
detection passing, `num_returns = 2` and no timeout, the call delegates with
timeout `2^30`; and with `num_returns = 3` it raises. -/
theorem c4_wait_validation_witness :
    ray_wait [sampleId 1, sampleId 2] 2 none NIL_ID =
      WaitCall.delegated [sampleId 1, sampleId 2] 2 (2 ^ 30) NIL_ID ∧
    (∃ msg, ray_wait [sampleId 1, sampleId 2] 3 none NIL_ID =
      WaitCall.errored msg) := by
  have h2 := c4_wait_validation [sampleId 1, sampleId 2] 2 none NIL_ID
    (by decide)
  have h3 := c4_wait_validation [sampleId 1, sampleId 2] 3 none NIL_ID
    (by decide)
  refine ⟨h2.2.2 (by decide) (by decide) (by decide), ?_⟩
  exact h3.1.mpr (Or.inr (Or.inr (by decide)))

/-! ## C5: resource validation in `submit_task`
(worker.py lines 599-631)

`submit_task` raises `ValueError("The resources dictionary is required.")`
when `resources is None`; then for each value of the map it raises when the
value is negative, and when the value is a float that is `>= 1` and not an
integer.  The task object is constructed and handed to
`raylet_client.submit_task` only after the whole loop passes. -/

/-- A resource quantity: the asserted `isinstance(value, int) or
isinstance(value, float)` means a value is either a Python int or a Python
float; a float is modelled as an exact rational, with `is_integer()`
becoming denominator 1. -/
inductive ResVal where
  | int (i : Int)
  | float (q : ℚ)
deriving DecidableEq

/-- `value < 0` on a resource quantity. -/
def resval_negative : ResVal → Bool
  | .int i => i < 0
  | .float q => q < 0

/-- `value >= 1 and isinstance(value, float) and not value.is_integer()`. -/
def resval_nonwhole_float : ResVal → Bool
  | .int _ => false
  | .float q => decide (1 ≤ q) && decide (q.den ≠ 1)

/-- Error message for a negative resource quantity. -/
def RESOURCES_NONNEGATIVE_MSG : String :=
  "Resource quantities must be nonnegative."

/-- Error message for a non-whole resource quantity at least 1. -/
def RESOURCES_WHOLE_MSG : String :=
  "Resource quantities must all be whole numbers."

/-- Error message for a missing resources dictionary. -/
def RESOURCES_REQUIRED_MSG : String := "The resources dictionary is required."

/-- The two per-value checks of the loop, in source order. -/
def check_resource_value (v : ResVal) : Except String Unit :=
  if resval_negative v then .error RESOURCES_NONNEGATIVE_MSG
  else if resval_nonwhole_float v then .error RESOURCES_WHOLE_MSG
  else .ok ()

/-- The validation loop over `resources.values()`. -/
def check_resource_values : List ResVal → Except String Unit
  | [] => .ok ()
  | v :: rest =>
    match check_resource_value v with
    | .error m => .error m
    | .ok _ => check_resource_values rest

/-- The resource-validation prefix of `submit_task` (worker.py lines
599-609): `.ok res` models reaching the code that builds the
`ray.raylet.Task` and hands it to the scheduler, `.error` models the raised
`ValueError` (no task is constructed or submitted). -/
def submit_task_validate (resources : Option (List (String × ResVal))) :
    Except String (List (String × ResVal)) :=
  match resources with
  | none => .error RESOURCES_REQUIRED_MSG
  | some res =>
    match check_resource_values (res.map Prod.snd) with
    | .error m => .error m
    | .ok _ => .ok res

/-- If any value in the list fails its per-value check, the loop raises. -/
theorem check_resource_values_error (vs : List ResVal) (v : ResVal)
    (hv : v ∈ vs)
    (hbad : resval_negative v = true ∨ resval_nonwhole_float v = true) :
    ∃ m, check_resource_values vs = Except.error m := by
  induction vs with
  | nil => cases hv
  | cons w rest ih =>
    unfold check_resource_values
    cases hw : check_resource_value w with
    | error m => exact ⟨m, rfl⟩
    | ok u =>
      rcases List.mem_cons.mp hv with hv1 | hv2
      · subst hv1
        unfold check_resource_value at hw
        rcases hbad with hb | hb
        · rw [if_pos hb] at hw; cases hw
        · rw [if_neg, if_pos hb] at hw
          · cases hw
          · intro hneg
            rw [if_pos hneg] at hw; cases hw
      · exact ih hv2

/-- C5: if the resources map is absent, or any resource value is negative,
or any resource value is a non-integer float with value at least 1,
`submit_task` raises an exception to the caller, and in every such failure
case no task is handed to the scheduler (the result is never `.ok`). -/
theorem c5_submit_task_resource_validation
    (res : List (String × ResVal)) :
    submit_task_validate none = Except.error RESOURCES_REQUIRED_MSG ∧
    (∀ r, submit_task_validate none ≠ Except.ok r) ∧
    ((∃ p ∈ res, resval_negative p.2 = true ∨
        resval_nonwhole_float p.2 = true) →
      (∃ m, submit_task_validate (some res) = Except.error m) ∧
      ∀ r, submit_task_validate (some res) ≠ Except.ok r) := by
  refine ⟨rfl, ?_, ?_⟩
  · intro r h
    cases h
  intro ⟨p, hp, hbad⟩
  have hmem : p.2 ∈ res.map Prod.snd := List.mem_map_of_mem Prod.snd hp
  obtain ⟨m, hm⟩ := check_resource_values_error (res.map Prod.snd) p.2
    hmem hbad
  constructor
  · refine ⟨m, ?_⟩
    simp only [submit_task_validate, hm]
  · intro r hok
    simp only [submit_task_validate, hm] at hok
    cases hok

/-- The rational three halves, built with explicit numerator and
denominator so that the kernel evaluates comparisons on it. -/
def three_halves : ℚ := ⟨3, 2, by decide, by decide⟩

/-- C5 witness: a concrete resources map carrying the non-integer float 3/2
(which is at least 1) is rejected, and the validation never reaches the
submission step. -/
theorem c5_submit_task_resource_validation_witness :
    (∃ m, submit_task_validate
        (some [("CustomResource", ResVal.float three_halves)]) =
      Except.error m) ∧
    submit_task_validate none = Except.error RESOURCES_REQUIRED_MSG := by
  have h := c5_submit_task_resource_validation
    [("CustomResource", ResVal.float three_halves)]
  have hbad : resval_nonwhole_float (ResVal.float three_halves) = true := by
    decide
  exact ⟨(h.2.2 ⟨_, List.mem_singleton.mpr rfl, Or.inr hbad⟩).1, h.1⟩

/-! ## C6: `put_object` (worker.py lines 329-376)

`put_object` first rejects a value that is itself an ObjectID (before any
store interaction).  It then calls `store_and_register`; a
`PlasmaObjectExists` from that call is caught, logged at INFO level and the
function returns normally; a `TypeError` causes a pickle fallback to be
registered and one retry of `store_and_register`, whose exceptions are not
caught; any other exception propagates. -/

/-- Error message of the ObjectID rejection in `put_object`. -/
def PUT_OBJECTID_MSG : String :=
  "Calling put on an ObjectID is not allowed."

/-- Error message for a `PlasmaObjectExists` escaping the uncaught retry. -/
def PLASMA_EXISTS_UNCAUGHT_MSG : String := "PlasmaObjectExists"

/-- Error message for a `TypeError` escaping the uncaught retry. -/
def TYPE_ERROR_UNCAUGHT_MSG : String := "TypeError"

/-- The outcome of one `store_and_register` call, seen from `put_object`:
success, the object already exists, a `TypeError` during serialization, or
some other exception. -/
inductive StoreAttemptOutcome where
  | ok
  | plasmaObjectExists
  | typeError
  | raised (msg : String)
deriving DecidableEq

/-- The successful results of `put_object`. -/
inductive PutOutcome where
  | stored
  | alreadyExistsLoggedInfo
deriving DecidableEq

/-- `put_object` (worker.py lines 329-376), modelled over the outcomes of
its first and (when a `TypeError` forces the pickle-fallback retry) second
`store_and_register` call.  The second component counts how many
`store_and_register` calls were made, so that "nothing is stored" is
visible as a count of 0. -/
def put_object (value : Value) (o1 o2 : StoreAttemptOutcome) :
    Except String PutOutcome × Nat :=
  match value with
  | .objectID _ => (.error PUT_OBJECTID_MSG, 0)
  | _ =>
    match o1 with
    | .ok => (.ok .stored, 1)
    | .plasmaObjectExists => (.ok .alreadyExistsLoggedInfo, 1)
    | .raised m => (.error m, 1)
    | .typeError =>
      match o2 with
      | .ok => (.ok .stored, 2)
      | .plasmaObjectExists => (.error PLASMA_EXISTS_UNCAUGHT_MSG, 2)
      | .typeError => (.error TYPE_ERROR_UNCAUGHT_MSG, 2)
      | .raised m => (.error m, 2)

/-- C6 counterexample: for the concrete non-ObjectID value `payload 7`,
when the first `store_and_register` call fails with a `TypeError` and the
uncaught fallback retry is the call on which the store reports that the
object already exists, `put_object` does NOT return normally: the
`PlasmaObjectExists` propagates to the caller (the `except
pyarrow.PlasmaObjectExists` handler wraps only the first call, worker.py
lines 355-365, while the retry at line 376 is unguarded).  This refutes the
claim that an already-exists report always yields an INFO log and a normal
return. -/
theorem c6_fallback_retry_exists_propagates :
    put_object (Value.payload 7) StoreAttemptOutcome.typeError
        StoreAttemptOutcome.plasmaObjectExists =
      (Except.error PLASMA_EXISTS_UNCAUGHT_MSG, 2) ∧
    (put_object (Value.payload 7) StoreAttemptOutcome.typeError
        StoreAttemptOutcome.plasmaObjectExists).1 ≠
      Except.ok PutOutcome.alreadyExistsLoggedInfo ∧
    (put_object (Value.payload 7) StoreAttemptOutcome.typeError
        StoreAttemptOutcome.plasmaObjectExists).1 ≠
      Except.ok PutOutcome.stored := by
  refine ⟨rfl, ?_, ?_⟩
  · intro h
    cases h
  · intro h
    cases h

/-- C6 amended: `put_object` on a value that is itself an ObjectID raises
with no store interaction at all (zero `store_and_register` calls); when
the value is not an ObjectID and the FIRST `store_and_register` call
reports that the object already exists, the call logs at INFO level and
returns normally (success constructor `alreadyExistsLoggedInfo`, no
exception); but when the already-exists report comes from the uncaught
retry inside the `TypeError` fallback, it propagates as an exception to the
caller. -/
theorem c6_put_object (rid : RayID) (value : Value)
    (o1 o2 : StoreAttemptOutcome)
    (hnotid : ∀ r, value ≠ Value.objectID r) :
    put_object (Value.objectID rid) o1 o2 = (.error PUT_OBJECTID_MSG, 0) ∧
    put_object value StoreAttemptOutcome.plasmaObjectExists o2 =
      (.ok PutOutcome.alreadyExistsLoggedInfo, 1) ∧
    put_object value StoreAttemptOutcome.typeError
        StoreAttemptOutcome.plasmaObjectExists =
      (.error PLASMA_EXISTS_UNCAUGHT_MSG, 2) := by
  refine ⟨rfl, ?_, ?_⟩
  · cases value with
    | objectID r => exact absurd rfl (hnotid r)
    | taskError e => rfl
    | payload d => rfl
  · cases value with
    | objectID r => exact absurd rfl (hnotid r)
    | taskError e => rfl
    | payload d => rfl

/-- C6 amended, witness: evaluated at a concrete payload value and a
concrete ObjectID value, covering the first-call already-exists success and
the fallback-retry propagation. -/
theorem c6_put_object_witness :
    put_object (Value.objectID (sampleId 8)) StoreAttemptOutcome.ok
      StoreAttemptOutcome.ok = (.error PUT_OBJECTID_MSG, 0) ∧
    put_object (Value.payload 7) StoreAttemptOutcome.plasmaObjectExists
      StoreAttemptOutcome.ok =
      (.ok PutOutcome.alreadyExistsLoggedInfo, 1) ∧
    put_object (Value.payload 7) StoreAttemptOutcome.typeError
        StoreAttemptOutcome.plasmaObjectExists =
      (.error PLASMA_EXISTS_UNCAUGHT_MSG, 2) := by
  have h := c6_put_object (sampleId 8) (Value.payload 7)
    StoreAttemptOutcome.ok StoreAttemptOutcome.ok
    (fun r hr => by cases hr)
  exact h

/-! ## C7: the background error printer and suppression window
(worker.py lines 1769-1793, `get` lines 2370-2386)

`print_error_messages_raylet` pops `(error, t)` pairs from the queue, sleeps
while `t + UNCAUGHT_ERROR_GRACE_PERIOD > time.time()`, and then logs the
message at ERROR level unless `t < last_task_error_raise_time +
UNCAUGHT_ERROR_GRACE_PERIOD`, in which case it only logs a debug-level
suppression note.  `get` sets `last_task_error_raise_time = time.time()`
immediately before raising a `RayTaskError` value it retrieved. -/

/-- `UNCAUGHT_ERROR_GRACE_PERIOD = 5` seconds (worker.py line 1774). -/
def UNCAUGHT_ERROR_GRACE_PERIOD : ℚ := 5

/-- What the printer does with a drained message at a given instant. -/
inductive PrinterAction where
  | sleeping
  | suppressed
  | logged
deriving DecidableEq

/-- One observation of the printer loop on a message with event timestamp
`t`, at wall time `now`, with the current `last_task_error_raise_time`
`last`: while `t + 5 > now` the loop is still sleeping; once `now ≥ t + 5`
the message is suppressed when `t < last + 5` and logged as an error
otherwise. -/
def printer_step (t now last : ℚ) : PrinterAction :=
  if t + UNCAUGHT_ERROR_GRACE_PERIOD > now then .sleeping
  else if t < last + UNCAUGHT_ERROR_GRACE_PERIOD then .suppressed
  else .logged

/-- The `RayTaskError` check in `get` (worker.py lines 2373-2386): when the
retrieved value is a failure sentinel, `last_task_error_raise_time` is set
to the current wall time and the sentinel is raised; otherwise the global is
untouched and nothing is raised.  The result records (raised, new value of
`last_task_error_raise_time`). -/
def get_raise_update (value : Value) (now last : ℚ) : Bool × ℚ :=
  match value with
  | .taskError _ => (true, now)
  | _ => (false, last)

/-- C7: the printer waits until at least `t + 5` seconds of wall time have
passed (it is still sleeping exactly while `now < t + 5`), and then logs the
message as an error if and only if `t ≥ last_task_error_raise_time + 5`,
suppressing it otherwise; and `get` sets `last_task_error_raise_time` to the
current wall time exactly when it raises a `RayTaskError` sentinel. -/
theorem c7_printer_suppression (t now last : ℚ) (value : Value) :
    (printer_step t now last = PrinterAction.sleeping ↔
      now < t + UNCAUGHT_ERROR_GRACE_PERIOD) ∧
    (printer_step t now last = PrinterAction.logged ↔
      (t + UNCAUGHT_ERROR_GRACE_PERIOD ≤ now ∧
        last + UNCAUGHT_ERROR_GRACE_PERIOD ≤ t)) ∧
    (printer_step t now last = PrinterAction.suppressed ↔
      (t + UNCAUGHT_ERROR_GRACE_PERIOD ≤ now ∧
        t < last + UNCAUGHT_ERROR_GRACE_PERIOD)) ∧
    (get_raise_update value now last =
      (is_task_error value, if is_task_error value then now else last)) := by
  have hval : get_raise_update value now last =
      (is_task_error value, if is_task_error value then now else last) := by
    cases value <;> rfl
  have hsleep : printer_step t now last = PrinterAction.sleeping ↔
      now < t + UNCAUGHT_ERROR_GRACE_PERIOD := by
    unfold printer_step
    split_ifs with h1 h2
    · simpa using h1
    · simpa using h1
    · simpa using h1
  have hlog : printer_step t now last = PrinterAction.logged ↔
      (t + UNCAUGHT_ERROR_GRACE_PERIOD ≤ now ∧
        last + UNCAUGHT_ERROR_GRACE_PERIOD ≤ t) := by
    unfold printer_step
    split_ifs with h1 h2
    · constructor
      · intro h; exact absurd h (by decide)
      · intro h; linarith [h.1]
    · constructor
      · intro h; exact absurd h (by decide)
      · intro h; linarith [h.2]
    · constructor
      · intro _; exact ⟨le_of_not_lt h1, le_of_not_lt h2⟩
      · intro _; rfl
  have hsup : printer_step t now last = PrinterAction.suppressed ↔
      (t + UNCAUGHT_ERROR_GRACE_PERIOD ≤ now ∧
        t < last + UNCAUGHT_ERROR_GRACE_PERIOD) := by
    unfold printer_step
    split_ifs with h1 h2
    · constructor
      · intro h; exact absurd h (by decide)
      · intro h; linarith [h.1]
    · constructor
      · intro _; exact ⟨le_of_not_lt h1, h2⟩
      · intro _; rfl
    · constructor
      · intro h; exact absurd h (by decide)
      · intro h; exact absurd h.2 h2
  exact ⟨hsleep, hlog, hsup, hval⟩

/-! ## C9: default actor resources in the remote decorator
(worker.py lines 61-68 and `make_decorator` lines 2534-2550)

For an actor class, when `num_cpus`, `num_gpus` and `resources` are all
unspecified, the creation task uses
`DEFAULT_ACTOR_CREATION_CPUS_SIMPLE_CASE = 0` CPUs and each method
`DEFAULT_ACTOR_METHOD_CPUS_SIMPLE_CASE = 1` CPU; when any of them is
specified, each method uses `DEFAULT_ACTOR_METHOD_CPUS_SPECIFIED_CASE = 0`
CPUs and the creation task uses `num_cpus` (defaulting to
`DEFAULT_ACTOR_CREATION_CPUS_SPECIFIED_CASE = 1`), together with the
declared `num_gpus` and `resources`. -/

/-- worker.py line 63. -/
def DEFAULT_ACTOR_METHOD_CPUS_SIMPLE_CASE : ℚ := 1

/-- worker.py line 64. -/
def DEFAULT_ACTOR_CREATION_CPUS_SIMPLE_CASE : ℚ := 0

/-- worker.py line 67. -/
def DEFAULT_ACTOR_METHOD_CPUS_SPECIFIED_CASE : ℚ := 0

/-- worker.py line 68. -/
def DEFAULT_ACTOR_CREATION_CPUS_SPECIFIED_CASE : ℚ := 1

/-- The resource arguments `make_decorator` hands to `worker.make_actor`:
the creation-task CPUs (`cpus_to_use`), the declared gpus and custom
resources (passed through unchanged), and the per-method CPUs
(`actor_method_cpus`). -/
structure ActorResourceSpec where
  cpus_to_use : ℚ
  num_gpus : Option ℚ
  resources : Option (List (String × ℚ))
  actor_method_cpus : ℚ
deriving DecidableEq

/-- The actor branch of `make_decorator` (worker.py lines 2534-2550). -/
def make_actor_resources (num_cpus num_gpus : Option ℚ)
    (resources : Option (List (String × ℚ))) : ActorResourceSpec :=
  if num_cpus = none ∧ num_gpus = none ∧ resources = none then
    ⟨DEFAULT_ACTOR_CREATION_CPUS_SIMPLE_CASE, num_gpus, resources,
     DEFAULT_ACTOR_METHOD_CPUS_SIMPLE_CASE⟩
  else
    ⟨(match num_cpus with
      | none => DEFAULT_ACTOR_CREATION_CPUS_SPECIFIED_CASE
      | some c => c), num_gpus, resources,
     DEFAULT_ACTOR_METHOD_CPUS_SPECIFIED_CASE⟩

/-- C9: with none of `num_cpus`, `num_gpus`, `resources` specified, the
actor-creation task requires 0 CPUs and each actor method 1 CPU; with any
of them specified, each actor method requires 0 CPUs and the creation task
absorbs the declared resources, with `num_cpus` defaulting to 1 when
unspecified. -/
theorem c9_actor_resource_defaults (num_cpus num_gpus : Option ℚ)
    (resources : Option (List (String × ℚ))) :
    (num_cpus = none ∧ num_gpus = none ∧ resources = none →
      make_actor_resources num_cpus num_gpus resources =
        ⟨0, none, none, 1⟩) ∧
    (¬(num_cpus = none ∧ num_gpus = none ∧ resources = none) →
      (make_actor_resources num_cpus num_gpus resources).actor_method_cpus
          = 0 ∧
      (make_actor_resources num_cpus num_gpus resources).cpus_to_use =
        (match num_cpus with | none => 1 | some c => c) ∧
      (make_actor_resources num_cpus num_gpus resources).num_gpus =
        num_gpus ∧
      (make_actor_resources num_cpus num_gpus resources).resources =
        resources) := by
  constructor
  · intro h
    obtain ⟨h1, h2, h3⟩ := h
    subst h1; subst h2; subst h3
    rfl
  · intro h
    unfold make_actor_resources
    rw [if_neg h]
    exact ⟨rfl, rfl, rfl, rfl⟩

/-- C9 witness: evaluated in the simple case and in a specified case where
only `num_gpus` is given (so `num_cpus` defaults to 1 for the creation task
and methods need 0 CPUs). -/
theorem c9_actor_resource_defaults_witness :
    make_actor_resources none none none = ⟨0, none, none, 1⟩ ∧
    (make_actor_resources none (some 2) none).actor_method_cpus = 0 ∧
    (make_actor_resources none (some 2) none).cpus_to_use = 1 := by
  have h1 := (c9_actor_resource_defaults none none none).1
    ⟨rfl, rfl, rfl⟩
  have h2 := (c9_actor_resource_defaults none (some 2) none).2
    (fun h => by cases h.2.1)
  exact ⟨h1, h2.1, h2.2.1⟩

/-! ## C10: termination of `store_and_register`
(worker.py lines 263-327)

`store_and_register` runs `counter = 0; while True:` where each round first
raises the "maximum number of classes" exception when `counter == depth`
(`depth` defaults to 100), then increments `counter` and attempts the
plasma put.  A successful put breaks the loop; a
`SerializationCallbackError` is caught and a fallback codec is registered
for the offending type before retrying; any other exception (and any
exception escaping the fallback-registration cascade) propagates.  The loop
is modelled with the decreasing fuel `depth - counter`. -/

/-- What one round of the loop body does after the depth check: the plasma
put succeeds, or raises a non-serialization exception (directly or from the
fallback-registration cascade), or fails with a serialization error whose
offending type gets a fallback codec registered before the retry. -/
inductive AttemptOutcome where
  | stored
  | raised (msg : String)
  | serializationError
deriving DecidableEq

/-- The result of `store_and_register`: the object was stored after a
number of put attempts, an exception propagated, or the
"Ray exceeded the maximum number of classes" exception was raised. -/
inductive StoreResult where
  | stored (attempts : Nat)
  | raised (msg : String)
  | exceededMaxClasses
deriving DecidableEq

/-- The `while True` loop of `store_and_register`, with fuel
`depth - counter`: fuel 0 is exactly the `counter == depth` check raising
the maximum-classes exception; otherwise the round increments the counter
and attempts the put. -/
def store_and_register_loop (attempt : Nat → AttemptOutcome) :
    Nat → Nat → StoreResult
  | 0, _counter => .exceededMaxClasses
  | fuel + 1, counter =>
    match attempt counter with
    | .stored => .stored (counter + 1)
    | .raised m => .raised m
    | .serializationError =>
      store_and_register_loop attempt fuel (counter + 1)

/-- `store_and_register` (worker.py lines 263-327): the loop started at
`counter = 0`; `depth` defaults to 100 at the call sites in `put_object`. -/
def store_and_register (attempt : Nat → AttemptOutcome) (depth : Nat) :
    StoreResult :=
  store_and_register_loop attempt depth 0

/-- Round-by-round behaviour of the loop: starting at any counter, either
every remaining round fails with a serialization error and the loop ends in
the maximum-classes exception, or some earliest round (preceded only by
serialization errors) stores the object or raises. -/
theorem store_and_register_loop_spec (attempt : Nat → AttemptOutcome) :
    ∀ fuel counter,
    store_and_register_loop attempt fuel counter = .exceededMaxClasses ∨
    ∃ k, counter ≤ k ∧ k < counter + fuel ∧
      (∀ i, counter ≤ i → i < k → attempt i = .serializationError) ∧
      ((attempt k = .stored ∧
        store_and_register_loop attempt fuel counter = .stored (k + 1)) ∨
       (∃ m, attempt k = .raised m ∧
        store_and_register_loop attempt fuel counter = .raised m)) := by
  intro fuel
  induction fuel with
  | zero => intro counter; exact Or.inl rfl
  | succ f ih =>
    intro counter
    cases hat : attempt counter with
    | stored =>
      refine Or.inr ⟨counter, le_refl counter, by omega, ?_, ?_⟩
      · intro i hi1 hi2; omega
      · exact Or.inl ⟨hat, by simp [store_and_register_loop, hat]⟩
    | raised m =>
      refine Or.inr ⟨counter, le_refl counter, by omega, ?_, ?_⟩
      · intro i hi1 hi2; omega
      · exact Or.inr ⟨m, hat, by simp [store_and_register_loop, hat]⟩
    | serializationError =>
      have hstep : store_and_register_loop attempt (f + 1) counter =
          store_and_register_loop attempt f (counter + 1) := by
        simp [store_and_register_loop, hat]
      rcases ih (counter + 1) with hex | ⟨k, hk1, hk2, hk3, hk4⟩
      · exact Or.inl (hstep.trans hex)
      · refine Or.inr ⟨k, by omega, by omega, ?_, ?_⟩
        · intro i hi1 hi2
          rcases Nat.eq_or_lt_of_le hi1 with hi | hi
          · exact hi ▸ hat
          · exact hk3 i hi hi2
        · rcases hk4 with ⟨h1, h2⟩ | ⟨m, h1, h2⟩
          · exact Or.inl ⟨h1, hstep.trans h2⟩
          · exact Or.inr ⟨m, h1, hstep.trans h2⟩

/-- C10: `store_and_register` always terminates — every run either stores
the object within `depth` put attempts, raises a non-serialization error at
some attempt before the depth bound (with only serialization failures, each
answered by a fallback-codec registration, before it), or, after `depth`
failed serialization attempts, raises the maximum-number-of-classes
exception rather than retrying forever; in particular, with the default
`depth = 100`, a run in which every attempt fails with a serialization
error raises the maximum-classes exception after exactly 100 attempts. -/
theorem c10_store_and_register_terminates (attempt : Nat → AttemptOutcome)
    (depth : Nat) :
    (store_and_register attempt depth = .exceededMaxClasses ∨
      ∃ k, k < depth ∧
        (∀ i, i < k → attempt i = .serializationError) ∧
        ((attempt k = .stored ∧
          store_and_register attempt depth = .stored (k + 1)) ∨
         (∃ m, attempt k = .raised m ∧
          store_and_register attempt depth = .raised m))) ∧
    ((∀ i, i < 100 → attempt i = .serializationError) →
      store_and_register attempt 100 = .exceededMaxClasses) := by
  constructor
  · rcases store_and_register_loop_spec attempt depth 0 with h | ⟨k, _, hk2, hk3, hk4⟩
    · exact Or.inl h
    · exact Or.inr ⟨k, by omega,
        fun i hi => hk3 i (Nat.zero_le i) hi, hk4⟩
  · intro hall
    have : ∀ fuel counter, counter + fuel ≤ 100 →
        (∀ i, i < 100 → attempt i = .serializationError) →
        store_and_register_loop attempt fuel counter =
          .exceededMaxClasses := by
      intro fuel
      induction fuel with
      | zero => intro counter _ _; rfl
      | succ f ih =>
        intro counter hle hall2
        have hat : attempt counter = .serializationError :=
          hall2 counter (by omega)
        have hstep : store_and_register_loop attempt (f + 1) counter =
            store_and_register_loop attempt f (counter + 1) := by
          simp [store_and_register_loop, hat]
        exact hstep.trans (ih (counter + 1) (by omega) hall2)
    exact this 100 0 (by omega) hall

/-- C10 witness: with every attempt failing as a serialization error, the
run at the default depth 100 raises the maximum-classes exception; with an
attempt function that succeeds on the third try, the object is stored after
3 attempts. -/
theorem c10_store_and_register_terminates_witness :
    store_and_register (fun _ => AttemptOutcome.serializationError) 100 =
      StoreResult.exceededMaxClasses ∧
    store_and_register
      (fun i => if i < 2 then AttemptOutcome.serializationError
                else AttemptOutcome.stored) 100 = StoreResult.stored 3 := by
  constructor
  · exact (c10_store_and_register_terminates
      (fun _ => AttemptOutcome.serializationError) 100).2
      (fun i _ => rfl)
  · have h := (c10_store_and_register_terminates
      (fun i => if i < 2 then AttemptOutcome.serializationError
                else AttemptOutcome.stored) 100).1
    rcases h with hex | ⟨k, _, hk3, hk4⟩
    · exact absurd hex (by decide)
    · rcases hk4 with ⟨h1, h2⟩ | ⟨m, h1, _⟩
      · have hk2' : ¬k < 2 := by
          intro hlt
          have := hk3
          simp [hlt] at h1
        have hk2'' : k = 2 := by
          by_contra hne
          have h3 : 2 < k := by omega
          have := hk3 2 h3
          simp at this
        rw [hk2''] at h2
        exact h2
      · by_cases hk : k < 2 <;> simp [hk] at h1

end RayWorker
